import Mathlib

/-!
Verification development for the Supermodel (Sega Model 3 emulator) sources:
the Real3D OpenGL renderer (r3dgl.c) and the DRPPC dynamic-recompiler
interface header (m3/drppc/drppc.h).

Machine integers are modelled as `Nat` (all the quantities involved are
unsigned in the source); pointers are modelled either as `Option Nat`
(nullable host pointers) or as byte offsets into a region, and byte
buffers as total functions `Nat → Nat` whose values are bytes (`< 256`
where it matters, stated as an explicit hypothesis).
-/

/-! ## Real3D address translation (r3dgl.c, `translate_r3d_address`) -/

/-- The four memory regions declared by the renderer
(`culling_ram_8c`, `culling_ram_8e`, `polygon_ram`, `vrom`). -/
inductive R3DRegion where
  | cullingRam8C
  | cullingRam8E
  | polygonRam
  | vrom
deriving DecidableEq, Repr

/-- Function `translate_r3d_address` from r3dgl.c: translates a Real3D internal
address into a region together with the byte offset from that region's base
pointer (`&culling_ram_8c[addr * 4]` becomes `(cullingRam8C, addr * 4)`,
and so on); the final `return NULL` becomes `none`. -/
def translate_r3d_address (addr : Nat) : Option (R3DRegion × Nat) :=
  if addr ≤ 0x007FFFF then                                -- 8C culling RAM
    some (R3DRegion.cullingRam8C, addr * 4)
  else if 0x0800000 ≤ addr ∧ addr ≤ 0x083FFFF then        -- 8E culling RAM
    some (R3DRegion.cullingRam8E, (addr &&& 0x003FFFF) * 4)
  else if 0x1000000 ≤ addr ∧ addr ≤ 0x107FFFF then        -- polygon RAM
    some (R3DRegion.polygonRam, (addr &&& 0x007FFFF) * 4)
  else if 0x1800000 ≤ addr ∧ addr ≤ 0x1FFFFFF then        -- VROM
    some (R3DRegion.vrom, (addr &&& 0x07FFFFF) * 4)
  else
    none

/-- The address range `[start, end]` each region is declared to serve, as
tested by `translate_r3d_address`. -/
def regionRange : R3DRegion → Nat × Nat
  | R3DRegion.cullingRam8C => (0x0000000, 0x007FFFF)
  | R3DRegion.cullingRam8E => (0x0800000, 0x083FFFF)
  | R3DRegion.polygonRam   => (0x1000000, 0x107FFFF)
  | R3DRegion.vrom         => (0x1800000, 0x1FFFFFF)

/-- Holds when `addr` lies inside the declared range of region `r`. -/
def inRegion (r : R3DRegion) (addr : Nat) : Prop :=
  (regionRange r).1 ≤ addr ∧ addr ≤ (regionRange r).2

instance (r : R3DRegion) (addr : Nat) : Decidable (inRegion r addr) := by
  unfold inRegion; infer_instance

/-- The byte extent each region must accommodate, as claimed: the largest
byte offset `translate_r3d_address` may produce for that region. -/
def regionByteBound : R3DRegion → Nat
  | R3DRegion.cullingRam8C => 4 * 0x7FFFF
  | R3DRegion.cullingRam8E => 4 * 0x3FFFF
  | R3DRegion.polygonRam   => 4 * 0x7FFFF
  | R3DRegion.vrom         => 4 * 0x7FFFFF

/-! ## DRPPC interface header (m3/drppc/drppc.h) -/

/-- Structure `DRPPC_REGION` from drppc.h: a memory-map region record. Host pointers
(`UINT8 *ptr`, `void *handler`) are modelled as `Option Nat`, `NULL` being
`none`. The C field `end` is a Lean keyword and is rendered `end_`. -/
structure DRPPC_REGION where
  start : Nat
  end_ : Nat
  ptr : Option Nat
  handler : Option Nat
  volatile_ptr : Bool
  big_endian : Bool
deriving DecidableEq, Repr

/-- Macro `DRPPC_REGION_BUF_BE(start, end, buf, vol)`:
`{ start, end, (UINT8 *)(buf), NULL, vol, TRUE }`. -/
def DRPPC_REGION_BUF_BE (start end_ : Nat) (buf : Option Nat) (vol : Bool) :
    DRPPC_REGION :=
  { start := start, end_ := end_, ptr := buf, handler := none
    volatile_ptr := vol, big_endian := true }

/-- Macro `DRPPC_REGION_BUF_LE(start, end, buf, flags)`:
`{ start, end, (UINT8 *)(buf), NULL, vol, FALSE }`. As written in the
header, the macro's fourth parameter is named `flags` but its body stores
the token `vol`, which is not a parameter: it is resolved to whatever
binding named `vol` exists at the expansion site. The extra argument
`ctxVol` models the value of that call-site binding. -/
def DRPPC_REGION_BUF_LE (start end_ : Nat) (buf : Option Nat) (flags : Bool)
    (ctxVol : Bool) : DRPPC_REGION :=
  { start := start, end_ := end_, ptr := buf, handler := none
    volatile_ptr := ctxVol, big_endian := false }

/-- Macro `DRPPC_REGION_HANDLER(start, end, handler)`:
`{ start, end, NULL, (void *)(handler), FALSE, FALSE }`. -/
def DRPPC_REGION_HANDLER (start end_ : Nat) (handler : Option Nat) :
    DRPPC_REGION :=
  { start := start, end_ := end_, ptr := none, handler := handler
    volatile_ptr := false, big_endian := false }

/-- Macro `DRPPC_REGION_END`: `{ 0, 0, NULL, NULL, FALSE, FALSE }`. -/
def DRPPC_REGION_END : DRPPC_REGION :=
  { start := 0, end_ := 0, ptr := none, handler := none
    volatile_ptr := false, big_endian := false }

/-- Macro `DRPPC_REGION_PLACEHOLDER`:
`{ 0xFFFFFFFF, 0xFFFFFFFF, NULL, NULL, FALSE, FALSE }`. -/
def DRPPC_REGION_PLACEHOLDER : DRPPC_REGION :=
  { start := 0xFFFFFFFF, end_ := 0xFFFFFFFF, ptr := none, handler := none
    volatile_ptr := false, big_endian := false }

/-- Macro `DRPPC_SET_REGION_BUF_BE(r, _start, _end, _buf, _vol)`: assigns all six
fields of `r` in place; modelled as returning the updated record. -/
def DRPPC_SET_REGION_BUF_BE (r : DRPPC_REGION) (start end_ : Nat)
    (buf : Option Nat) (vol : Bool) : DRPPC_REGION :=
  { r with start := start, end_ := end_, ptr := buf, handler := none
           volatile_ptr := vol, big_endian := true }

/-- Macro `DRPPC_SET_REGION_BUF_LE(r, _start, _end, _buf, _vol)`. -/
def DRPPC_SET_REGION_BUF_LE (r : DRPPC_REGION) (start end_ : Nat)
    (buf : Option Nat) (vol : Bool) : DRPPC_REGION :=
  { r with start := start, end_ := end_, ptr := buf, handler := none
           volatile_ptr := vol, big_endian := false }

/-- Macro `DRPPC_SET_REGION_HANDLER(r, _start, _end, _h)`. -/
def DRPPC_SET_REGION_HANDLER (r : DRPPC_REGION) (start end_ : Nat)
    (h : Option Nat) : DRPPC_REGION :=
  { r with start := start, end_ := end_, ptr := none, handler := h
           volatile_ptr := false, big_endian := false }

/-- The mutual-exclusivity invariant on a region record: at most one of the
`ptr` and `handler` fields is non-`NULL`. -/
def regionMutex (r : DRPPC_REGION) : Prop :=
  r.ptr = none ∨ r.handler = none

/-- Enumeration `DRPPC_ERRNUM` from drppc.h, as an enumeration of its eight members. -/
inductive DRPPC_ERRNUM where
  | DRPPC_ERROR
  | DRPPC_INVALID_CONFIG
  | DRPPC_BAD_PC
  | DRPPC_OUT_OF_MEMORY
  | DRPPC_COMPILE_ERROR
  | DRPPC_RUNTIME_ERROR
  | DRPPC_OKAY
  | DRPPC_TERMINATOR
deriving DecidableEq, Repr

/-- The integer value the C enum assigns to each `DRPPC_ERRNUM` member:
the six explicit error values, `DRPPC_OKAY = 0`, and `DRPPC_TERMINATOR`
which, carrying no initializer after `DRPPC_OKAY = 0`, is `1`. -/
def errnumValue : DRPPC_ERRNUM → Int
  | DRPPC_ERRNUM.DRPPC_ERROR => -1
  | DRPPC_ERRNUM.DRPPC_INVALID_CONFIG => -2
  | DRPPC_ERRNUM.DRPPC_BAD_PC => -3
  | DRPPC_ERRNUM.DRPPC_OUT_OF_MEMORY => -4
  | DRPPC_ERRNUM.DRPPC_COMPILE_ERROR => -5
  | DRPPC_ERRNUM.DRPPC_RUNTIME_ERROR => -6
  | DRPPC_ERRNUM.DRPPC_OKAY => 0
  | DRPPC_ERRNUM.DRPPC_TERMINATOR => 1

/-- The host-visible status codes (every member except the internal-only
`DRPPC_TERMINATOR`). -/
def hostVisibleCodes : List DRPPC_ERRNUM :=
  [DRPPC_ERRNUM.DRPPC_ERROR, DRPPC_ERRNUM.DRPPC_INVALID_CONFIG,
   DRPPC_ERRNUM.DRPPC_BAD_PC, DRPPC_ERRNUM.DRPPC_OUT_OF_MEMORY,
   DRPPC_ERRNUM.DRPPC_COMPILE_ERROR, DRPPC_ERRNUM.DRPPC_RUNTIME_ERROR,
   DRPPC_ERRNUM.DRPPC_OKAY]

/-- Constant `DRPPC_ZERO_THRESHOLD` from drppc.h: "The exact threshold needed to
bypass the profiling stage." -/
def DRPPC_ZERO_THRESHOLD : Nat := 1

/-! ## Theorems -/

/-- C1: for every guest address, `translate_r3d_address` resolves every
address inside a declared region to that region (so never to another
region's buffer), and returns `NULL` for every address lying in none of
the four declared ranges. -/
theorem translate_r3d_address_total_unambiguous (addr : Nat) :
    (∀ r : R3DRegion, inRegion r addr →
      ∃ off, translate_r3d_address addr = some (r, off)) ∧
    (∀ r : R3DRegion, ∀ off, translate_r3d_address addr = some (r, off) →
      inRegion r addr) ∧
    ((∀ r : R3DRegion, ¬ inRegion r addr) →
      translate_r3d_address addr = none) := by
  unfold translate_r3d_address
  refine ⟨?_, ?_, ?_⟩
  · intro r hr
    cases r <;> simp only [inRegion, regionRange] at hr <;> split <;>
      first
        | exact ⟨_, rfl⟩
        | (exfalso; omega)
        | (split <;>
            first
              | exact ⟨_, rfl⟩
              | (exfalso; omega)
              | (split <;>
                  first
                    | exact ⟨_, rfl⟩
                    | (exfalso; omega)
                    | (split <;> first | exact ⟨_, rfl⟩ | (exfalso; omega))))
  · intro r off h
    split at h
    any_goals split at h
    any_goals split at h
    any_goals split at h
    all_goals
      first
        | (simp only [Option.some.injEq, Prod.mk.injEq] at h
           obtain ⟨h₁, h₂⟩ := h
           subst h₁
           simp only [inRegion, regionRange]
           omega)
        | simp at h
  · intro hnone
    have h1 := hnone R3DRegion.cullingRam8C
    have h2 := hnone R3DRegion.cullingRam8E
    have h3 := hnone R3DRegion.polygonRam
    have h4 := hnone R3DRegion.vrom
    simp only [inRegion, regionRange] at h1 h2 h3 h4
    split
    · omega
    · rfl

/-- Witness for C1 at concrete addresses: `0x800000` resolves to the 8E
culling RAM region and `0x200000` (in none of the four ranges) to `NULL`. -/
theorem translate_r3d_address_total_unambiguous_witness :
    (∃ off, translate_r3d_address 0x800000 =
      some (R3DRegion.cullingRam8E, off)) ∧
    translate_r3d_address 0x200000 = none :=
  ⟨(translate_r3d_address_total_unambiguous 0x800000).1 R3DRegion.cullingRam8E
      (by decide),
   (translate_r3d_address_total_unambiguous 0x200000).2.2
      (fun r => by cases r <;> decide)⟩

/-- C10: every byte offset `translate_r3d_address` produces stays within
the corresponding region's extent: at most `4 * 0x7FFFF` for 8C culling RAM
and for polygon RAM, at most `4 * 0x3FFFF` for 8E culling RAM, and at most
`4 * 0x7FFFFF` for VROM. -/
theorem translate_r3d_address_offset_in_extent (addr : Nat) (r : R3DRegion)
    (off : Nat) (h : translate_r3d_address addr = some (r, off)) :
    off ≤ regionByteBound r := by
  unfold translate_r3d_address at h
  split at h <;> [skip; split at h] <;> [skip; skip; split at h] <;>
    [skip; skip; skip; split at h] <;>
    simp_all only [Option.some.injEq, Prod.mk.injEq, reduceCtorEq]
  all_goals obtain ⟨h₁, h₂⟩ := h; subst h₁; subst h₂
  all_goals simp only [regionByteBound]
  · omega
  · have := Nat.and_le_right (n := addr) (m := 0x3FFFF); omega
  · have := Nat.and_le_right (n := addr) (m := 0x7FFFF); omega
  · have := Nat.and_le_right (n := addr) (m := 0x7FFFFF); omega

/-- Witness for C10 at a concrete address: `0x83FFFF` maps to the last
word of the 8E culling RAM region. -/
theorem translate_r3d_address_offset_in_extent_witness :
    translate_r3d_address 0x83FFFF =
      some (R3DRegion.cullingRam8E, 4 * 0x3FFFF) ∧
    4 * 0x3FFFF ≤ regionByteBound R3DRegion.cullingRam8E :=
  have h : translate_r3d_address 0x83FFFF =
      some (R3DRegion.cullingRam8E, 4 * 0x3FFFF) := by decide
  ⟨h, translate_r3d_address_offset_in_extent 0x83FFFF _ _ h⟩

/-- C3 counter-evidence: `DRPPC_REGION_BUF_LE`'s body ignores its supplied
fourth argument (`flags := true` here) and stores the call-site binding of
the token `vol` (`false` here) instead, so the LE region's `volatile_ptr`
differs from the BE region's even though both were supplied `true`. -/
theorem region_buf_le_ignores_vol_argument :
    (DRPPC_REGION_BUF_LE 0 0xFFFF (some 1) true false).volatile_ptr = false ∧
    (DRPPC_REGION_BUF_BE 0 0xFFFF (some 1) true).volatile_ptr = true ∧
    (DRPPC_REGION_BUF_LE 0 0xFFFF (some 1) true false).volatile_ptr ≠
      (DRPPC_REGION_BUF_BE 0 0xFFFF (some 1) true).volatile_ptr := by
  decide

/-- C5: every region value built by the region macros satisfies the
construction-time mutual-exclusivity invariant: buffer constructors set
`handler` to `NULL`, handler constructors set `ptr` to `NULL`, and the
end/placeholder regions set both to `NULL`. -/
theorem region_macros_mutually_exclusive (s e : Nat) (buf hd : Option Nat)
    (vol flags ctxVol : Bool) (r : DRPPC_REGION) :
    (DRPPC_REGION_BUF_BE s e buf vol).handler = none ∧
    (DRPPC_REGION_BUF_LE s e buf flags ctxVol).handler = none ∧
    (DRPPC_REGION_HANDLER s e hd).ptr = none ∧
    DRPPC_REGION_END.ptr = none ∧ DRPPC_REGION_END.handler = none ∧
    DRPPC_REGION_PLACEHOLDER.ptr = none ∧
    DRPPC_REGION_PLACEHOLDER.handler = none ∧
    (DRPPC_SET_REGION_BUF_BE r s e buf vol).handler = none ∧
    (DRPPC_SET_REGION_BUF_LE r s e buf vol).handler = none ∧
    (DRPPC_SET_REGION_HANDLER r s e hd).ptr = none ∧
    regionMutex (DRPPC_REGION_BUF_BE s e buf vol) ∧
    regionMutex (DRPPC_REGION_BUF_LE s e buf flags ctxVol) ∧
    regionMutex (DRPPC_REGION_HANDLER s e hd) ∧
    regionMutex DRPPC_REGION_END ∧
    regionMutex DRPPC_REGION_PLACEHOLDER ∧
    regionMutex (DRPPC_SET_REGION_BUF_BE r s e buf vol) ∧
    regionMutex (DRPPC_SET_REGION_BUF_LE r s e buf vol) ∧
    regionMutex (DRPPC_SET_REGION_HANDLER r s e hd) := by
  refine ⟨rfl, rfl, rfl, rfl, rfl, rfl, rfl, rfl, rfl, rfl, ?_, ?_, ?_, ?_,
    ?_, ?_, ?_, ?_⟩ <;>
    first
      | exact Or.inr rfl
      | exact Or.inl rfl

/-- C6: the status type has exactly the seven host-visible codes, pairwise
distinct, with okay equal to zero and every error code negative, plus the
single internal-only `DRPPC_TERMINATOR`, whose value differs from every
host-visible code. -/
theorem errnum_codes_exact :
    (hostVisibleCodes.map errnumValue = [-1, -2, -3, -4, -5, -6, 0]) ∧
    (hostVisibleCodes.map errnumValue).Nodup ∧
    errnumValue DRPPC_ERRNUM.DRPPC_OKAY = 0 ∧
    (∀ c ∈ hostVisibleCodes, c ≠ DRPPC_ERRNUM.DRPPC_OKAY →
      errnumValue c < 0) ∧
    (∀ c : DRPPC_ERRNUM, c ∈ hostVisibleCodes ∨ c = DRPPC_ERRNUM.DRPPC_TERMINATOR) ∧
    DRPPC_ERRNUM.DRPPC_TERMINATOR ∉ hostVisibleCodes ∧
    (∀ c ∈ hostVisibleCodes,
      errnumValue DRPPC_ERRNUM.DRPPC_TERMINATOR ≠ errnumValue c) := by
  refine ⟨rfl, by decide, rfl, by decide, ?_, by decide, by decide⟩
  intro c; cases c <;> simp [hostVisibleCodes]

/-! ## 32-bit word fetch macros (r3dgl.c, `GETWORDLE` / `GETWORDBE`) -/

/-- Macro `GETWORDLE(a)` is `*(UINT32 *) a`: the 32-bit word obtained by
dereferencing four consecutive bytes on the (little-endian) host,
i.e. the little-endian assembly of `buf a .. buf (a+3)`. -/
def GETWORDLE (buf : Nat → Nat) (a : Nat) : Nat :=
  buf a + buf (a + 1) * 0x100 + buf (a + 2) * 0x10000 + buf (a + 3) * 0x1000000

/-- Modelled from the spec: `BSWAP32` (defined in a header that is not
among the sources) reverses the four bytes of a 32-bit word. -/
def BSWAP32 (w : Nat) : Nat :=
  (w % 0x100) * 0x1000000 + (w / 0x100 % 0x100) * 0x10000 +
    (w / 0x10000 % 0x100) * 0x100 + w / 0x1000000 % 0x100

/-- Macro `GETWORDBE(a)` is `BSWAP32(*(UINT32 *) a)`. -/
def GETWORDBE (buf : Nat → Nat) (a : Nat) : Nat :=
  BSWAP32 (GETWORDLE buf a)

/-- Applying `BSWAP32` to a word assembled from four bytes reverses the bytes. -/
theorem bswap32_bytes (b0 b1 b2 b3 : Nat) (h0 : b0 < 0x100) (h1 : b1 < 0x100)
    (h2 : b2 < 0x100) (h3 : b3 < 0x100) :
    BSWAP32 (b0 + b1 * 0x100 + b2 * 0x10000 + b3 * 0x1000000) =
      b3 + b2 * 0x100 + b1 * 0x10000 + b0 * 0x1000000 := by
  simp only [BSWAP32]
  omega

/-- C4: for every 4-byte sequence, the big-endian fetch equals the
byte-reversal of the little-endian fetch of the same bytes; concretely the
big-endian fetch assembles the bytes in big-endian order, and the two
fetches are byte-reversals of one another. -/
theorem getwordbe_is_bswap_of_getwordle (buf : Nat → Nat) (a : Nat)
    (h : ∀ j < 4, buf (a + j) < 0x100) :
    GETWORDBE buf a = BSWAP32 (GETWORDLE buf a) ∧
    GETWORDBE buf a =
      buf (a + 3) + buf (a + 2) * 0x100 + buf (a + 1) * 0x10000 +
        buf a * 0x1000000 ∧
    BSWAP32 (GETWORDBE buf a) = GETWORDLE buf a := by
  have h0 : buf a < 0x100 := by simpa using h 0 (by omega)
  have h1 : buf (a + 1) < 0x100 := h 1 (by omega)
  have h2 : buf (a + 2) < 0x100 := h 2 (by omega)
  have h3 : buf (a + 3) < 0x100 := h 3 (by omega)
  have e1 : GETWORDBE buf a =
      buf (a + 3) + buf (a + 2) * 0x100 + buf (a + 1) * 0x10000 +
        buf a * 0x1000000 := by
    simp only [GETWORDBE, GETWORDLE]
    exact bswap32_bytes (buf a) (buf (a + 1)) (buf (a + 2)) (buf (a + 3))
      h0 h1 h2 h3
  refine ⟨rfl, e1, ?_⟩
  rw [e1,
    bswap32_bytes (buf (a + 3)) (buf (a + 2)) (buf (a + 1)) (buf a)
      h3 h2 h1 h0]
  rfl

/-- Witness for C4 on the concrete byte sequence `12 34 56 78`. -/
theorem getwordbe_is_bswap_of_getwordle_witness :
    GETWORDBE (fun i => [0x12, 0x34, 0x56, 0x78].getD i 0) 0 =
      BSWAP32 (GETWORDLE (fun i => [0x12, 0x34, 0x56, 0x78].getD i 0) 0) ∧
    GETWORDBE (fun i => [0x12, 0x34, 0x56, 0x78].getD i 0) 0 = 0x12345678 :=
  have hb : ∀ j < 4, (fun i => [0x12, 0x34, 0x56, 0x78].getD i 0) (0 + j)
      < 0x100 := by decide
  have h := getwordbe_is_bswap_of_getwordle
    (fun i => [0x12, 0x34, 0x56, 0x78].getD i 0) 0 hb
  ⟨h.1, by rw [h.2.1]; decide⟩

/-! ## Execution Driver hot-promotion policy

The Execution Driver itself (drppc.c) is not among the sources; only its
interface header is. The promotion policy below is therefore modelled from
the spec: a block starts Uncompiled, each encounter in the Interpreted
state increments `execution_count`, and the block is promoted to Native
when the count reaches the configured hot threshold (`hot_threshold` from
`DRPPC_CFG`); `interpret_only` and flushes are out of scope for this
claim. -/

/-- Block descriptor projection relevant to promotion: mirrors
`DRPPC_BB.count` and the nullness of `DRPPC_BB.ptr`. -/
structure HotBB where
  count : Nat
  hasNative : Bool
deriving DecidableEq, Repr

/-- The state-machine states of §4.3. -/
inductive BlockState where
  | Uncompiled
  | Interpreted
  | Native
deriving DecidableEq, Repr

/-- Modelled from the spec: one encounter of a block under threshold
`T`. A Native block stays Native; otherwise the execution count is
incremented, and the block is promoted exactly when the count reaches
`T`. -/
def encounterBlock (T : Nat) (b : HotBB) : HotBB :=
  if b.hasNative then b
  else if b.count + 1 = T then { count := b.count + 1, hasNative := true }
  else { count := b.count + 1, hasNative := false }

/-- A block on first encounter: never seen, no native code. -/
def freshBlock : HotBB := { count := 0, hasNative := false }

/-- The block after `n` encounters under threshold `T`. -/
def encountersFromFresh (T : Nat) : Nat → HotBB
  | 0 => freshBlock
  | n + 1 => encounterBlock T (encountersFromFresh T n)

/-- The §4.3 state a block descriptor is in. -/
def blockState (b : HotBB) : BlockState :=
  if b.hasNative then BlockState.Native
  else if b.count = 0 then BlockState.Uncompiled
  else BlockState.Interpreted

/-- Below the threshold the block is exactly `⟨k, interpreted⟩`. -/
theorem encountersFromFresh_below (T k : Nat) (hk : k < T) :
    encountersFromFresh T k = { count := k, hasNative := false } := by
  induction k with
  | zero => rfl
  | succ n ih =>
      have hn : n < T := by omega
      simp only [encountersFromFresh, ih hn, encounterBlock]
      split
      · simp_all
      · split
        · omega
        · rfl

/-- C2: for every hot threshold `T ≥ DRPPC_ZERO_THRESHOLD`, a block is
still Interpreted after `T - 1` encounters with `execution_count = T - 1`,
is promoted to Native exactly on encounter `T`, and with the sentinel
threshold `DRPPC_ZERO_THRESHOLD = 1` the promotion happens on the very
first encounter. -/
theorem hot_threshold_boundary (T : Nat) (hT : DRPPC_ZERO_THRESHOLD ≤ T) :
    (∀ k < T, blockState (encountersFromFresh T k) ≠ BlockState.Native ∧
      (encountersFromFresh T k).count = k) ∧
    (0 < T - 1 → blockState (encountersFromFresh T (T - 1)) =
      BlockState.Interpreted) ∧
    blockState (encountersFromFresh T T) = BlockState.Native ∧
    (encountersFromFresh T T).count = T ∧
    DRPPC_ZERO_THRESHOLD = 1 ∧
    (T = DRPPC_ZERO_THRESHOLD →
      blockState (encountersFromFresh T 1) = BlockState.Native) := by
  have hT1 : 1 ≤ T := hT
  have hbelow := encountersFromFresh_below T
  have hstepT : encountersFromFresh T T =
      { count := T, hasNative := true } := by
    obtain ⟨n, rfl⟩ : ∃ n, T = n + 1 := ⟨T - 1, by omega⟩
    rw [encountersFromFresh, hbelow n (by omega)]
    simp [encounterBlock]
  refine ⟨?_, ?_, ?_, ?_, rfl, ?_⟩
  · intro k hk
    rw [hbelow k hk]
    refine ⟨?_, rfl⟩
    simp only [blockState]
    split
    · simp_all
    · split <;> simp
  · intro hpos
    rw [hbelow (T - 1) (by omega)]
    simp only [blockState]
    split
    · simp_all
    · split
      · omega
      · rfl
  · rw [hstepT]; rfl
  · rw [hstepT]
  · intro h1
    have hone : T = 1 := h1
    subst hone
    rw [hstepT]; rfl

/-- Witness for C2 at threshold `T = 3`: Interpreted with count 2 after two
encounters, Native on the third; and at the sentinel threshold 1, Native on
the first encounter. -/
theorem hot_threshold_boundary_witness :
    (blockState (encountersFromFresh 3 2) = BlockState.Interpreted ∧
      (encountersFromFresh 3 2).count = 2) ∧
    blockState (encountersFromFresh 3 3) = BlockState.Native ∧
    blockState (encountersFromFresh 1 1) = BlockState.Native :=
  have h3 := hot_threshold_boundary 3 (by decide)
  have h1 := hot_threshold_boundary 1 (by decide)
  ⟨⟨h3.2.1 (by decide), (h3.1 2 (by decide)).2⟩,
   h3.2.2.1, h1.2.2.2.2.2 rfl⟩

/-! ## Code Cache Manager flush protocol

The Code Cache Manager itself (drppc.c) is not among the sources; only the
configuration fields sizing the two arenas and their guard regions appear
in `DRPPC_CFG`. The arena/flush behaviour below is therefore modelled from
the spec (§4.4, §7): each arena has a guard-bounded capacity; an
allocation that would breach the guard boundary triggers a full flush
(discard all Block Descriptors, reset both arenas to empty, invalidate the
Lookup Index in full) and execution resumes, whereas an out-of-memory from
the host allocator is fatal. -/

/-- A cache arena: bytes in use, total size, and trailing guard size
(mirroring `native_cache_size` / `native_cache_guard_size` and the
intermediate pair in `DRPPC_CFG`). -/
structure CacheArena where
  used : Nat
  size : Nat
  guard : Nat
deriving DecidableEq, Repr

/-- Engine cache state: the two arenas, the Block Descriptor Store and the
Lookup Index (both as association lists keyed by guest address). -/
structure CacheState where
  native : CacheArena
  intermediate : CacheArena
  descriptors : List (Nat × HotBB)
  lookup : List (Nat × HotBB)
deriving DecidableEq, Repr

/-- Which of the two arenas an allocation targets. -/
inductive ArenaKind where
  | nativeCode
  | intermediateCode
deriving DecidableEq, Repr

/-- The arena of the given kind. -/
def arenaOf (k : ArenaKind) (s : CacheState) : CacheArena :=
  match k with
  | ArenaKind.nativeCode => s.native
  | ArenaKind.intermediateCode => s.intermediate

/-- Modelled from the spec: the reservation would breach the guard
boundary, i.e. overrun the `size - guard` usable prefix of the arena. -/
def wouldBreachGuard (a : CacheArena) (req : Nat) : Bool :=
  decide (a.size < a.used + req + a.guard)

/-- Modelled from the spec: a full flush discards all Block Descriptors,
resets both arenas to empty and invalidates the Lookup Index in full. -/
def fullFlush (s : CacheState) : CacheState :=
  { native := { s.native with used := 0 }
    intermediate := { s.intermediate with used := 0 }
    descriptors := []
    lookup := [] }

/-- The outcome of a cache-arena reservation. -/
inductive AllocOutcome where
  | ok (offset : Nat)
  | flushed
deriving DecidableEq, Repr

/-- Modelled from the spec: `Allocate(arena, size)` returns a pointer, or
signals capacity-exceeded — in which case the engine performs the full
flush and execution continues. -/
def cacheAllocate (k : ArenaKind) (req : Nat) (s : CacheState) :
    CacheState × AllocOutcome :=
  if wouldBreachGuard (arenaOf k s) req then
    (fullFlush s, AllocOutcome.flushed)
  else
    match k with
    | ArenaKind.nativeCode =>
        ({ s with native := { s.native with used := s.native.used + req } },
         AllocOutcome.ok s.native.used)
    | ArenaKind.intermediateCode =>
        ({ s with intermediate :=
            { s.intermediate with used := s.intermediate.used + req } },
         AllocOutcome.ok s.intermediate.used)

/-- Look a guest address up in the Lookup Index. -/
def lookupBlock (s : CacheState) (addr : Nat) : Option HotBB :=
  (s.lookup.find? (fun p => p.1 == addr)).map Prod.snd

/-- The §4.3 state of the block at `addr`: an address absent from the
Lookup Index is Uncompiled (never seen since the last flush). -/
def cachedBlockState (s : CacheState) (addr : Nat) : BlockState :=
  match lookupBlock s addr with
  | none => BlockState.Uncompiled
  | some b => blockState b

/-- How the engine reacts to an event: keep running or stop the run with a
status code. -/
inductive EngineOutcome where
  | keepRunning
  | fatal (code : DRPPC_ERRNUM)
deriving DecidableEq, Repr

/-- Modelled from the spec (§7): cache exhaustion is recoverable (the
flush happened; execution continues), while a failed host allocation
(`Alloc` returning `NULL`) is fatal with `DRPPC_OUT_OF_MEMORY`. -/
def allocOutcomeReaction (o : AllocOutcome) : EngineOutcome :=
  match o with
  | AllocOutcome.ok _ => EngineOutcome.keepRunning
  | AllocOutcome.flushed => EngineOutcome.keepRunning

/-- Modelled from the spec (§7): the engine's reaction to the host
allocator's result. -/
def hostAllocReaction (p : Option Nat) : EngineOutcome :=
  match p with
  | none => EngineOutcome.fatal DRPPC_ERRNUM.DRPPC_OUT_OF_MEMORY
  | some _ => EngineOutcome.keepRunning

/-- C7: whenever a reservation would breach the guard boundary of either
arena, the allocation performs a full flush: afterwards no Block
Descriptor survives, both arenas are empty, the Lookup Index has no
entries, every block is back in the Uncompiled state, and execution
continues (the event is recoverable) — while host-allocator out-of-memory
is fatal. -/
theorem guard_breach_full_flush (k : ArenaKind) (req : Nat) (s : CacheState)
    (h : wouldBreachGuard (arenaOf k s) req = true) :
    (cacheAllocate k req s).1.descriptors = [] ∧
    (cacheAllocate k req s).1.lookup = [] ∧
    (cacheAllocate k req s).1.native.used = 0 ∧
    (cacheAllocate k req s).1.intermediate.used = 0 ∧
    (∀ addr, cachedBlockState (cacheAllocate k req s).1 addr =
      BlockState.Uncompiled) ∧
    (cacheAllocate k req s).2 = AllocOutcome.flushed ∧
    allocOutcomeReaction (cacheAllocate k req s).2 =
      EngineOutcome.keepRunning ∧
    hostAllocReaction none =
      EngineOutcome.fatal DRPPC_ERRNUM.DRPPC_OUT_OF_MEMORY := by
  have hres : cacheAllocate k req s = (fullFlush s, AllocOutcome.flushed) := by
    unfold cacheAllocate
    rw [if_pos h]
  rw [hres]
  refine ⟨rfl, rfl, rfl, rfl, ?_, rfl, rfl, rfl⟩
  intro addr
  simp [cachedBlockState, lookupBlock, fullFlush]

/-- Witness for C7 on a concrete state: a 1-byte native arena with a
1-byte guard, one descriptor and one lookup entry; a 1-byte reservation
breaches the guard and flushes everything. -/
theorem guard_breach_full_flush_witness :
    (cacheAllocate ArenaKind.nativeCode 1
        { native := { used := 0, size := 1, guard := 1 }
          intermediate := { used := 0, size := 4, guard := 1 }
          descriptors := [(0x100, { count := 3, hasNative := true })]
          lookup := [(0x100, { count := 3, hasNative := true })] }).1.lookup
      = [] ∧
    cachedBlockState
      (cacheAllocate ArenaKind.nativeCode 1
        { native := { used := 0, size := 1, guard := 1 }
          intermediate := { used := 0, size := 4, guard := 1 }
          descriptors := [(0x100, { count := 3, hasNative := true })]
          lookup := [(0x100, { count := 3, hasNative := true })] }).1 0x100
      = BlockState.Uncompiled :=
  have h := guard_breach_full_flush ArenaKind.nativeCode 1
    { native := { used := 0, size := 1, guard := 1 }
      intermediate := { used := 0, size := 4, guard := 1 }
      descriptors := [(0x100, { count := 3, hasNative := true })]
      lookup := [(0x100, { count := 3, hasNative := true })] }
    (by decide)
  ⟨h.2.1, h.2.2.2.2.1 0x100⟩

/-! ## Texture upload grid indexing (r3dgl.c, `r3dgl_upload_texture`) -/

/-- Width of the uploaded texture in 8x8 tiles:
`tiles_x = (32 << ((header >> 14) & 3)) / 8`. -/
def tiles_x (header : Nat) : Nat :=
  (32 <<< ((header >>> 14) &&& 3)) / 8

/-- Height of the uploaded texture in 8x8 tiles:
`tiles_y = (32 << ((header >> 17) & 3)) / 8`. -/
def tiles_y (header : Nat) : Nat :=
  (32 <<< ((header >>> 17) &&& 3)) / 8

/-- Vertical tile position: `ypos = (((header >> 7) & 0x1F) | ((header >> 15) & 0x20)) * 32`. -/
def texYpos (header : Nat) : Nat :=
  (((header >>> 7) &&& 0x1F) ||| ((header >>> 15) &&& 0x20)) * 32

/-- Horizontal tile position: `xpos = ((header >> 0) & 0x3F) * 32`. -/
def texXpos (header : Nat) : Nat :=
  ((header >>> 0) &&& 0x3F) * 32

/-- The `texture_grid` index written in the marking loop of
`r3dgl_upload_texture`: `(yi + ypos / 32) * 64 + (xi + xpos / 32)`. -/
def textureGridIndex (header yi xi : Nat) : Nat :=
  (yi + texYpos header / 32) * 64 + (xi + texXpos header / 32)

/-- The header reaches the texture-grid marking loop (the function does
not take the `(header & 0x0f000000) == 0x02000000` early return). -/
def uploadReachesGrid (header : Nat) : Prop :=
  header &&& 0x0f000000 ≠ 0x02000000

/-- Counterexample for C9: at header `0x160F80` (tiles_y bits = 3 giving a
256-pixel-tall texture, y position bits giving tile row 63, and no early
return) the marking loop runs `yi` up to 7 and at `yi = 7, xi = 0` writes
`texture_grid` index `(7 + 63) * 64 = 4480 ≥ 64 * 64`. -/
theorem upload_texture_grid_index_not_in_bounds :
    uploadReachesGrid 0x160F80 ∧
    7 < (tiles_y 0x160F80 * 8) / 32 ∧
    0 < (tiles_x 0x160F80 * 8) / 32 ∧
    ¬ textureGridIndex 0x160F80 7 0 < 64 * 64 := by
  refine ⟨?_, by decide, by decide, by decide⟩
  unfold uploadReachesGrid
  decide

/-- C9 as amended: the `texture_grid` index is in bounds provided the
uploaded texture's tile extent fits inside the 64x64 grid from its
position, i.e. `ypos / 32 + (tiles_y * 8) / 32 ≤ 64` and
`xpos / 32 + (tiles_x * 8) / 32 ≤ 64`. -/
theorem upload_texture_grid_index_in_bounds (header yi xi : Nat)
    (hyfit : texYpos header / 32 + (tiles_y header * 8) / 32 ≤ 64)
    (hxfit : texXpos header / 32 + (tiles_x header * 8) / 32 ≤ 64)
    (hyi : yi < (tiles_y header * 8) / 32)
    (hxi : xi < (tiles_x header * 8) / 32) :
    textureGridIndex header yi xi < 64 * 64 := by
  unfold textureGridIndex
  omega

/-- Witness for the amended C9 at header `0` (a 32x32 texture at position
(0, 0)): the single grid write has index `0 < 64 * 64`. -/
theorem upload_texture_grid_index_in_bounds_witness :
    textureGridIndex 0 0 0 < 64 * 64 :=
  upload_texture_grid_index_in_bounds 0 0 0 (by decide) (by decide)
    (by decide) (by decide)

/-! ## Model drawing (r3dgl.c, `draw_model_be` / `draw_model_le`)

Both functions walk a polygon buffer one polygon at a time. The embedding
makes the implicit pieces explicit: the buffer is a total byte function,
the pointer advance becomes an offset, the C local arrays `v`/`prev_v`
(uninitialized at entry) are explicit parameters, the unbounded
`do/while` gets a fuel parameter, and each iteration's GL output is
recorded as a `PolyDraw` carrying the raw 32-bit words handed to
`convert_fixed_to_float` and the raw UV words (the float conversion and
the derived texture coordinates are deterministic functions of these). -/

/-- One vertex as read from the polygon record: the three raw 13.19
fixed-point coordinate words and the packed UV word. -/
structure MVertex where
  x : Nat
  y : Nat
  z : Nat
  uv : Nat
deriving DecidableEq, Repr

/-- The four-element vertex array `v[4]` / `prev_v[4]`. -/
structure VBank where
  v0 : MVertex
  v1 : MVertex
  v2 : MVertex
  v3 : MVertex
deriving DecidableEq, Repr

/-- One vertex record read big-endian: the loop body
`v[i].x = ...GETWORDBE(&buf[0x1C + i*16 + 0*4])` through `uv` at `3*4`. -/
def readVertBE (buf : Nat → Nat) (a : Nat) : MVertex :=
  { x := GETWORDBE buf (a + 0 * 4), y := GETWORDBE buf (a + 1 * 4)
    z := GETWORDBE buf (a + 2 * 4), uv := GETWORDBE buf (a + 3 * 4) }

/-- One vertex record read little-endian. -/
def readVertLE (buf : Nat → Nat) (a : Nat) : MVertex :=
  { x := GETWORDLE buf (a + 0 * 4), y := GETWORDLE buf (a + 1 * 4)
    z := GETWORDLE buf (a + 2 * 4), uv := GETWORDLE buf (a + 3 * 4) }

/-- Everything one loop iteration hands to OpenGL: texture size and UV
base selection, the three colour bytes in order, the texture-enable flag,
quad versus triangle, the case nibble, the bound texture-grid index and
the drawn vertices. -/
structure PolyDraw where
  texW : Nat
  texH : Nat
  uBase : Nat
  vBase : Nat
  colorR : Nat
  colorG : Nat
  colorB : Nat
  texEnable : Nat
  quad : Bool
  caseN : Nat
  texIndex : Nat
  verts : List MVertex
deriving DecidableEq, Repr

/-- The complete effect of one `do { ... }` iteration: the GL record, the
updated `v` and `prev_v` arrays, the buffer advance and the stop flag. -/
structure StepOut where
  draw : PolyDraw
  v : VBank
  prev : VBank
  adv : Nat
  stop : Nat
deriving DecidableEq, Repr

/-- One iteration of the `draw_model_be` loop at offset `off`. -/
def stepBE (buf : Nat → Nat) (off : Nat) (v prev : VBank) : StepOut :=
  let texW := 32 <<< ((GETWORDBE buf (off + 3 * 4) >>> 3) &&& 7)
  let texH := 32 <<< ((GETWORDBE buf (off + 3 * 4) >>> 0) &&& 7)
  let uBase := (((GETWORDBE buf (off + 4 * 4) &&& 0x1F) <<< 1) |||
    ((GETWORDBE buf (off + 5 * 4) &&& 0x80) >>> 7)) * 32
  let vBase := ((GETWORDBE buf (off + 5 * 4) &&& 0x1F) |||
    ((GETWORDBE buf (off + 4 * 4) &&& 0x40) >>> 1)) * 32
  let colorR := buf (off + (4 * 4 + 0))
  let colorG := buf (off + (4 * 4 + 1))
  let colorB := buf (off + (4 * 4 + 2))
  let texEnable := buf (off + (6 * 4 + 0)) &&& 0x04
  let stop := buf (off + (1 * 4 + 3)) &&& 4
  if buf (off + (0 * 4 + 3)) &&& 0x40 ≠ 0 then
    let vr : VBank × Nat :=
      match buf (off + (0 * 4 + 3)) &&& 0x0F with
      | 0 => (⟨readVertBE buf (off + (0x1C + 0 * 16)),
               readVertBE buf (off + (0x1C + 1 * 16)),
               readVertBE buf (off + (0x1C + 2 * 16)),
               readVertBE buf (off + (0x1C + 3 * 16))⟩, 0x5C)
      | 1 => (⟨prev.v0, readVertBE buf (off + (0x1C + 0 * 16)),
               readVertBE buf (off + (0x1C + 1 * 16)),
               readVertBE buf (off + (0x1C + 2 * 16))⟩, 0x4C)
      | 2 => (⟨prev.v1, readVertBE buf (off + (0x1C + 0 * 16)),
               readVertBE buf (off + (0x1C + 1 * 16)),
               readVertBE buf (off + (0x1C + 2 * 16))⟩, 0x4C)
      | 4 => (⟨prev.v2, readVertBE buf (off + (0x1C + 0 * 16)),
               readVertBE buf (off + (0x1C + 1 * 16)),
               readVertBE buf (off + (0x1C + 2 * 16))⟩, 0x4C)
      | 8 => (⟨prev.v3, readVertBE buf (off + (0x1C + 0 * 16)),
               readVertBE buf (off + (0x1C + 1 * 16)),
               readVertBE buf (off + (0x1C + 2 * 16))⟩, 0x4C)
      | 3 => (⟨prev.v0, prev.v1, readVertBE buf (off + (0x1C + 0 * 16)),
               readVertBE buf (off + (0x1C + 1 * 16))⟩, 0x3C)
      | 5 => (⟨prev.v0, prev.v2, readVertBE buf (off + (0x1C + 0 * 16)),
               readVertBE buf (off + (0x1C + 1 * 16))⟩, 0x3C)
      | 6 => (⟨prev.v1, prev.v2, readVertBE buf (off + (0x1C + 0 * 16)),
               readVertBE buf (off + (0x1C + 1 * 16))⟩, 0x3C)
      | 9 => (⟨prev.v0, prev.v3, readVertBE buf (off + (0x1C + 0 * 16)),
               readVertBE buf (off + (0x1C + 1 * 16))⟩, 0x3C)
      | 0xC => (⟨prev.v2, prev.v3, readVertBE buf (off + (0x1C + 0 * 16)),
               readVertBE buf (off + (0x1C + 1 * 16))⟩, 0x3C)
      | _ => (v, 0)
    { draw := { texW := texW, texH := texH, uBase := uBase, vBase := vBase
                colorR := colorR, colorG := colorG, colorB := colorB
                texEnable := texEnable, quad := true
                caseN := buf (off + (0 * 4 + 3)) &&& 0x0F
                texIndex := (vBase / 32) * 64 + uBase / 32
                verts := [vr.1.v0, vr.1.v1, vr.1.v2, vr.1.v3] }
      v := vr.1, prev := vr.1, adv := vr.2, stop := stop }
  else
    let vr : VBank × Nat :=
      match buf (off + (0 * 4 + 3)) &&& 0x0F with
      | 0 => (⟨readVertBE buf (off + (0x1C + 0 * 16)),
               readVertBE buf (off + (0x1C + 1 * 16)),
               readVertBE buf (off + (0x1C + 2 * 16)), v.v3⟩, 0x4C)
      | 1 => (⟨prev.v0, readVertBE buf (off + (0x1C + 0 * 16)),
               readVertBE buf (off + (0x1C + 1 * 16)), v.v3⟩, 0x3C)
      | 2 => (⟨prev.v1, readVertBE buf (off + (0x1C + 0 * 16)),
               readVertBE buf (off + (0x1C + 1 * 16)), v.v3⟩, 0x3C)
      | 4 => (⟨prev.v2, readVertBE buf (off + (0x1C + 0 * 16)),
               readVertBE buf (off + (0x1C + 1 * 16)), v.v3⟩, 0x3C)
      | 8 => (⟨prev.v3, readVertBE buf (off + (0x1C + 0 * 16)),
               readVertBE buf (off + (0x1C + 1 * 16)), v.v3⟩, 0x3C)
      | 3 => (⟨prev.v0, prev.v1,
               readVertBE buf (off + (0x1C + 0 * 16)), v.v3⟩, 0x2C)
      | 5 => (⟨prev.v0, prev.v2,
               readVertBE buf (off + (0x1C + 0 * 16)), v.v3⟩, 0x2C)
      | 6 => (⟨prev.v1, prev.v2,
               readVertBE buf (off + (0x1C + 0 * 16)), v.v3⟩, 0x2C)
      | 9 => (⟨prev.v0, prev.v3,
               readVertBE buf (off + (0x1C + 0 * 16)), v.v3⟩, 0x2C)
      | 0xC => (⟨prev.v2, prev.v3,
               readVertBE buf (off + (0x1C + 0 * 16)), v.v3⟩, 0x2C)
      | _ => (v, 0)
    { draw := { texW := texW, texH := texH, uBase := uBase, vBase := vBase
                colorR := colorR, colorG := colorG, colorB := colorB
                texEnable := texEnable, quad := false
                caseN := buf (off + (0 * 4 + 3)) &&& 0x0F
                texIndex := (vBase / 32) * 64 + uBase / 32
                verts := [vr.1.v0, vr.1.v1, vr.1.v2] }
      v := vr.1, prev := ⟨vr.1.v0, vr.1.v1, vr.1.v2, prev.v3⟩
      adv := vr.2, stop := stop }

/-- One iteration of the `draw_model_le` loop at offset `off`: identical
to `stepBE` except that every 32-bit fetch is `GETWORDLE` and every raw
byte access uses the little-endian byte positions of the source. -/
def stepLE (buf : Nat → Nat) (off : Nat) (v prev : VBank) : StepOut :=
  let texW := 32 <<< ((GETWORDLE buf (off + 3 * 4) >>> 3) &&& 7)
  let texH := 32 <<< ((GETWORDLE buf (off + 3 * 4) >>> 0) &&& 7)
  let uBase := (((GETWORDLE buf (off + 4 * 4) &&& 0x1F) <<< 1) |||
    ((GETWORDLE buf (off + 5 * 4) &&& 0x80) >>> 7)) * 32
  let vBase := ((GETWORDLE buf (off + 5 * 4) &&& 0x1F) |||
    ((GETWORDLE buf (off + 4 * 4) &&& 0x40) >>> 1)) * 32
  let colorR := buf (off + (4 * 4 + 3))
  let colorG := buf (off + (4 * 4 + 2))
  let colorB := buf (off + (4 * 4 + 1))
  let texEnable := buf (off + (6 * 4 + 3)) &&& 0x04
  let stop := buf (off + (1 * 4 + 0)) &&& 4
  if buf (off + (0 * 4 + 0)) &&& 0x40 ≠ 0 then
    let vr : VBank × Nat :=
      match buf (off + (0 * 4 + 0)) &&& 0x0F with
      | 0 => (⟨readVertLE buf (off + (0x1C + 0 * 16)),
               readVertLE buf (off + (0x1C + 1 * 16)),
               readVertLE buf (off + (0x1C + 2 * 16)),
               readVertLE buf (off + (0x1C + 3 * 16))⟩, 0x5C)
      | 1 => (⟨prev.v0, readVertLE buf (off + (0x1C + 0 * 16)),
               readVertLE buf (off + (0x1C + 1 * 16)),
               readVertLE buf (off + (0x1C + 2 * 16))⟩, 0x4C)
      | 2 => (⟨prev.v1, readVertLE buf (off + (0x1C + 0 * 16)),
               readVertLE buf (off + (0x1C + 1 * 16)),
               readVertLE buf (off + (0x1C + 2 * 16))⟩, 0x4C)
      | 4 => (⟨prev.v2, readVertLE buf (off + (0x1C + 0 * 16)),
               readVertLE buf (off + (0x1C + 1 * 16)),
               readVertLE buf (off + (0x1C + 2 * 16))⟩, 0x4C)
      | 8 => (⟨prev.v3, readVertLE buf (off + (0x1C + 0 * 16)),
               readVertLE buf (off + (0x1C + 1 * 16)),
               readVertLE buf (off + (0x1C + 2 * 16))⟩, 0x4C)
      | 3 => (⟨prev.v0, prev.v1, readVertLE buf (off + (0x1C + 0 * 16)),
               readVertLE buf (off + (0x1C + 1 * 16))⟩, 0x3C)
      | 5 => (⟨prev.v0, prev.v2, readVertLE buf (off + (0x1C + 0 * 16)),
               readVertLE buf (off + (0x1C + 1 * 16))⟩, 0x3C)
      | 6 => (⟨prev.v1, prev.v2, readVertLE buf (off + (0x1C + 0 * 16)),
               readVertLE buf (off + (0x1C + 1 * 16))⟩, 0x3C)
      | 9 => (⟨prev.v0, prev.v3, readVertLE buf (off + (0x1C + 0 * 16)),
               readVertLE buf (off + (0x1C + 1 * 16))⟩, 0x3C)
      | 0xC => (⟨prev.v2, prev.v3, readVertLE buf (off + (0x1C + 0 * 16)),
               readVertLE buf (off + (0x1C + 1 * 16))⟩, 0x3C)
      | _ => (v, 0)
    { draw := { texW := texW, texH := texH, uBase := uBase, vBase := vBase
                colorR := colorR, colorG := colorG, colorB := colorB
                texEnable := texEnable, quad := true
                caseN := buf (off + (0 * 4 + 0)) &&& 0x0F
                texIndex := (vBase / 32) * 64 + uBase / 32
                verts := [vr.1.v0, vr.1.v1, vr.1.v2, vr.1.v3] }
      v := vr.1, prev := vr.1, adv := vr.2, stop := stop }
  else
    let vr : VBank × Nat :=
      match buf (off + (0 * 4 + 0)) &&& 0x0F with
      | 0 => (⟨readVertLE buf (off + (0x1C + 0 * 16)),
               readVertLE buf (off + (0x1C + 1 * 16)),
               readVertLE buf (off + (0x1C + 2 * 16)), v.v3⟩, 0x4C)
      | 1 => (⟨prev.v0, readVertLE buf (off + (0x1C + 0 * 16)),
               readVertLE buf (off + (0x1C + 1 * 16)), v.v3⟩, 0x3C)
      | 2 => (⟨prev.v1, readVertLE buf (off + (0x1C + 0 * 16)),
               readVertLE buf (off + (0x1C + 1 * 16)), v.v3⟩, 0x3C)
      | 4 => (⟨prev.v2, readVertLE buf (off + (0x1C + 0 * 16)),
               readVertLE buf (off + (0x1C + 1 * 16)), v.v3⟩, 0x3C)
      | 8 => (⟨prev.v3, readVertLE buf (off + (0x1C + 0 * 16)),
               readVertLE buf (off + (0x1C + 1 * 16)), v.v3⟩, 0x3C)
      | 3 => (⟨prev.v0, prev.v1,
               readVertLE buf (off + (0x1C + 0 * 16)), v.v3⟩, 0x2C)
      | 5 => (⟨prev.v0, prev.v2,
               readVertLE buf (off + (0x1C + 0 * 16)), v.v3⟩, 0x2C)
      | 6 => (⟨prev.v1, prev.v2,
               readVertLE buf (off + (0x1C + 0 * 16)), v.v3⟩, 0x2C)
      | 9 => (⟨prev.v0, prev.v3,
               readVertLE buf (off + (0x1C + 0 * 16)), v.v3⟩, 0x2C)
      | 0xC => (⟨prev.v2, prev.v3,
               readVertLE buf (off + (0x1C + 0 * 16)), v.v3⟩, 0x2C)
      | _ => (v, 0)
    { draw := { texW := texW, texH := texH, uBase := uBase, vBase := vBase
                colorR := colorR, colorG := colorG, colorB := colorB
                texEnable := texEnable, quad := false
                caseN := buf (off + (0 * 4 + 0)) &&& 0x0F
                texIndex := (vBase / 32) * 64 + uBase / 32
                verts := [vr.1.v0, vr.1.v1, vr.1.v2] }
      v := vr.1, prev := ⟨vr.1.v0, vr.1.v1, vr.1.v2, prev.v3⟩
      adv := vr.2, stop := stop }

/-- The `do { ... } while (!stop)` loop of `draw_model_be`, fuelled. -/
def drawModelLoopBE (buf : Nat → Nat) :
    Nat → Nat → VBank → VBank → List PolyDraw
  | 0, _, _, _ => []
  | fuel + 1, off, v, prev =>
    let r := stepBE buf off v prev
    r.draw ::
      (if r.stop = 0 then drawModelLoopBE buf fuel (off + r.adv) r.v r.prev
       else [])

/-- The `do { ... } while (!stop)` loop of `draw_model_le`, fuelled. -/
def drawModelLoopLE (buf : Nat → Nat) :
    Nat → Nat → VBank → VBank → List PolyDraw
  | 0, _, _, _ => []
  | fuel + 1, off, v, prev =>
    let r := stepLE buf off v prev
    r.draw ::
      (if r.stop = 0 then drawModelLoopLE buf fuel (off + r.adv) r.v r.prev
       else [])

/-- The function `draw_model_be`: returns no polygons when the first word
is zero, else runs the loop from offset 0. (The `buf == NULL` early
return has no counterpart: buffers are total functions.) -/
def draw_model_be (buf : Nat → Nat) (fuel : Nat) (v prev : VBank) :
    List PolyDraw :=
  if GETWORDBE buf (0 * 4) = 0 then [] else drawModelLoopBE buf fuel 0 v prev

/-- The function `draw_model_le`. -/
def draw_model_le (buf : Nat → Nat) (fuel : Nat) (v prev : VBank) :
    List PolyDraw :=
  if GETWORDLE buf (0 * 4) = 0 then [] else drawModelLoopLE buf fuel 0 v prev

/-- The buffer in which each aligned 32-bit word has been byte-reversed. -/
def swapWords (buf : Nat → Nat) : Nat → Nat :=
  fun i => buf (4 * (i / 4) + (3 - i % 4))

/-- A word-aligned little-endian fetch from the word-swapped buffer equals
the big-endian fetch from the original buffer. -/
theorem getwordle_swapWords (buf : Nat → Nat) (hb : ∀ i, buf i < 0x100)
    (a : Nat) (ha : a % 4 = 0) :
    GETWORDLE (swapWords buf) a = GETWORDBE buf a := by
  have e0 : swapWords buf a = buf (a + 3) := by
    unfold swapWords; congr 1; omega
  have e1 : swapWords buf (a + 1) = buf (a + 2) := by
    unfold swapWords; congr 1; omega
  have e2 : swapWords buf (a + 2) = buf (a + 1) := by
    unfold swapWords; congr 1; omega
  have e3 : swapWords buf (a + 3) = buf a := by
    unfold swapWords; congr 1; omega
  simp only [GETWORDLE, GETWORDBE, e0, e1, e2, e3]
  rw [bswap32_bytes (buf a) (buf (a + 1)) (buf (a + 2)) (buf (a + 3))
    (hb a) (hb (a + 1)) (hb (a + 2)) (hb (a + 3))]

/-- A word-aligned vertex record read little-endian from the word-swapped
buffer equals the record read big-endian from the original buffer. -/
theorem readVert_swapWords (buf : Nat → Nat) (hb : ∀ i, buf i < 0x100)
    (a : Nat) (ha : a % 4 = 0) :
    readVertLE (swapWords buf) a = readVertBE buf a := by
  unfold readVertLE readVertBE
  rw [getwordle_swapWords buf hb (a + 0 * 4) (by omega),
    getwordle_swapWords buf hb (a + 1 * 4) (by omega),
    getwordle_swapWords buf hb (a + 2 * 4) (by omega),
    getwordle_swapWords buf hb (a + 3 * 4) (by omega)]

/-- One little-endian iteration on the word-swapped buffer is exactly one
big-endian iteration on the original buffer. -/
theorem stepLE_swapWords (buf : Nat → Nat) (hb : ∀ i, buf i < 0x100)
    (off : Nat) (hoff : off % 4 = 0) (v prev : VBank) :
    stepLE (swapWords buf) off v prev = stepBE buf off v prev := by
  have hq : swapWords buf (off + (0 * 4 + 0)) = buf (off + (0 * 4 + 3)) := by
    unfold swapWords; congr 1; omega
  have hs : swapWords buf (off + (1 * 4 + 0)) = buf (off + (1 * 4 + 3)) := by
    unfold swapWords; congr 1; omega
  have hr : swapWords buf (off + (4 * 4 + 3)) = buf (off + (4 * 4 + 0)) := by
    unfold swapWords; congr 1; omega
  have hg : swapWords buf (off + (4 * 4 + 2)) = buf (off + (4 * 4 + 1)) := by
    unfold swapWords; congr 1; omega
  have hbb : swapWords buf (off + (4 * 4 + 1)) = buf (off + (4 * 4 + 2)) := by
    unfold swapWords; congr 1; omega
  have ht : swapWords buf (off + (6 * 4 + 3)) = buf (off + (6 * 4 + 0)) := by
    unfold swapWords; congr 1; omega
  have hw3 := getwordle_swapWords buf hb (off + 3 * 4) (by omega)
  have hw4 := getwordle_swapWords buf hb (off + 4 * 4) (by omega)
  have hw5 := getwordle_swapWords buf hb (off + 5 * 4) (by omega)
  have hv0 := readVert_swapWords buf hb (off + (0x1C + 0 * 16)) (by omega)
  have hv1 := readVert_swapWords buf hb (off + (0x1C + 1 * 16)) (by omega)
  have hv2 := readVert_swapWords buf hb (off + (0x1C + 2 * 16)) (by omega)
  have hv3 := readVert_swapWords buf hb (off + (0x1C + 3 * 16)) (by omega)
  simp only [stepLE, stepBE, hq, hs, hr, hg, hbb, ht, hw3, hw4, hw5,
    hv0, hv1, hv2, hv3]

/-- Every buffer advance `stepBE` produces is a multiple of 4 (the
polygon records are 0x5C, 0x4C, 0x3C or 0x2C bytes, or 0 on the default
switch case). -/
theorem stepBE_adv_mod4 (buf : Nat → Nat) (off : Nat) (v prev : VBank) :
    (stepBE buf off v prev).adv % 4 = 0 := by
  simp only [stepBE]
  split <;> (split <;> simp)

/-- The fuelled little-endian loop on the word-swapped buffer coincides
with the big-endian loop on the original buffer at any word-aligned
starting offset. -/
theorem drawModelLoop_swapWords (buf : Nat → Nat) (hb : ∀ i, buf i < 0x100) :
    ∀ fuel off v prev, off % 4 = 0 →
      drawModelLoopLE (swapWords buf) fuel off v prev =
        drawModelLoopBE buf fuel off v prev := by
  intro fuel
  induction fuel with
  | zero => intro off v prev _; rfl
  | succ n ih =>
      intro off v prev hoff
      simp only [drawModelLoopLE, drawModelLoopBE]
      rw [stepLE_swapWords buf hb off hoff v prev]
      by_cases hstop : (stepBE buf off v prev).stop = 0
      · rw [if_pos hstop, if_pos hstop,
          ih (off + (stepBE buf off v prev).adv) (stepBE buf off v prev).v
            (stepBE buf off v prev).prev
            (by have := stepBE_adv_mod4 buf off v prev; omega)]
      · rw [if_neg hstop, if_neg hstop]

/-- C8: for every byte buffer, `draw_model_le` applied to the buffer with
every aligned 32-bit word byte-reversed performs exactly the computation
of `draw_model_be` on the original buffer: same stop decision, and per
polygon the same texture size and UV base selection, colour bytes, texture
enable, quad/triangle case selection, vertex words and buffer advance. -/
theorem draw_model_le_swapWords_eq_be (buf : Nat → Nat) (fuel : Nat)
    (v prev : VBank) (hb : ∀ i, buf i < 0x100) :
    draw_model_le (swapWords buf) fuel v prev =
      draw_model_be buf fuel v prev := by
  unfold draw_model_le draw_model_be
  rw [getwordle_swapWords buf hb (0 * 4) (by omega)]
  by_cases h : GETWORDBE buf (0 * 4) = 0
  · rw [if_pos h, if_pos h]
  · rw [if_neg h, if_neg h,
      drawModelLoop_swapWords buf hb fuel 0 v prev (by omega)]

/-- Witness for C8 on a concrete one-polygon buffer: word 0 nonzero, quad
case 0, stop bit set, all other bytes zero. -/
theorem draw_model_le_swapWords_eq_be_witness :
    draw_model_le
        (swapWords (fun i => if i = 3 then 0x40 else if i = 7 then 4 else 0))
        1
        ⟨⟨0, 0, 0, 0⟩, ⟨0, 0, 0, 0⟩, ⟨0, 0, 0, 0⟩, ⟨0, 0, 0, 0⟩⟩
        ⟨⟨0, 0, 0, 0⟩, ⟨0, 0, 0, 0⟩, ⟨0, 0, 0, 0⟩, ⟨0, 0, 0, 0⟩⟩ =
      draw_model_be (fun i => if i = 3 then 0x40 else if i = 7 then 4 else 0)
        1
        ⟨⟨0, 0, 0, 0⟩, ⟨0, 0, 0, 0⟩, ⟨0, 0, 0, 0⟩, ⟨0, 0, 0, 0⟩⟩
        ⟨⟨0, 0, 0, 0⟩, ⟨0, 0, 0, 0⟩, ⟨0, 0, 0, 0⟩, ⟨0, 0, 0, 0⟩⟩ :=
  draw_model_le_swapWords_eq_be
    (fun i => if i = 3 then 0x40 else if i = 7 then 4 else 0) 1
    ⟨⟨0, 0, 0, 0⟩, ⟨0, 0, 0, 0⟩, ⟨0, 0, 0, 0⟩, ⟨0, 0, 0, 0⟩⟩
    ⟨⟨0, 0, 0, 0⟩, ⟨0, 0, 0, 0⟩, ⟨0, 0, 0, 0⟩, ⟨0, 0, 0, 0⟩⟩
    (fun i => by dsimp only; split <;> [decide; skip] <;> split <;> decide)
